import Mathlib

/-!
Verification development for the `kit` repository (a model-driven REST
resource layer over a declarative ORM).

Part 1 embeds the serialization layer of `src/kit/ext/orm.py`:

* `Model.__declare_last__` (lines 252-280), which computes, once per model
  class, the `__json__` list of exposed attribute names;
* `Model.get_primary_key` (lines 327-345);
* `Model.to_json` (lines 347-379), the depth-bounded recursive serializer.

Machine integers are modelled as `Int`; Python dictionaries as ordered
association lists; a Python value that can appear as a model attribute as
the inductive type `Value`.
-/

namespace Kit

/-- A plain JSON-safe Python object, as produced by the serializer. -/
inductive PyObj where
  | int (n : Int)
  | str (s : String)
  | null
  | dict (fields : List (String × PyObj))
  | list (items : List PyObj)

/-- Field lookup in a serialized object; `Option.none` when the object is
not a dictionary or the key is absent. -/
def PyObj.lookup : PyObj → String → Option PyObj
  | .dict fields, k => List.lookup k fields
  | _, _ => Option.none

/-- Key list of a serialized object (empty when not a dictionary). -/
def PyObj.keys : PyObj → List String
  | .dict fields => fields.map Prod.fst
  | _ => []

/-- The `lazy` loading strategy of a SQLAlchemy relationship, as used by
`Model.__declare_last__` (src/kit/ext/orm.py lines 272-279). Python's
`False` and `True` values are `lfalse` and `ltrue`. -/
inductive LazyMode where
  | lfalse
  | ltrue
  | lselect
  | ljoined
  | limmediate
  | ldynamic
deriving DecidableEq

/-- Test from lines 273 and 278 of src/kit/ext/orm.py:
`lazy in [False, 'joined', 'immediate']`. -/
def LazyMode.isEager : LazyMode → Bool
  | .lfalse => true
  | .ljoined => true
  | .limmediate => true
  | _ => false

/-- Kind of a class member seen while walking `dir(cls)` in
`Model.__declare_last__`: a Python `property`, a mapped column, a mapped
relationship (with its `lazy` strategy), an association proxy (with the
`lazy` strategy of its local target relationship), or any other class
member (methods, class attributes, ...). -/
inductive MemberKind where
  | property
  | column
  | relationship (lazy : LazyMode)
  | assocProxy (targetLazy : LazyMode)
  | other
deriving DecidableEq

/-- The disjunction of the four inclusion tests of
`Model.__declare_last__` (src/kit/ext/orm.py lines 265-279). -/
def MemberKind.isExposed : MemberKind → Bool
  | .property => true
  | .column => true
  | .relationship lazy => lazy.isEager
  | .assocProxy targetLazy => targetLazy.isEager
  | .other => false

/-- Embedding of `Model.__declare_last__` (src/kit/ext/orm.py lines
252-280): the `__json__` attribute is the list of member names that do not
start with an underscore and whose kind passes one of the four tests.
`members` is the list of pairs produced by walking `dir(cls)` (which
enumerates every class member, in sorted order). -/
def declare_last_json (members : List (String × MemberKind)) : List String :=
  members.filterMap fun m =>
    if m.1.startsWith "_" then Option.none
    else if m.2.isExposed then some m.1 else Option.none

/-- A declared model class: its primary-key column names (in declaration
order, from `class_mapper(cls).primary_key`) and the class members walked
by `__declare_last__`. -/
structure EntityType where
  pk_names : List String
  members : List (String × MemberKind)
deriving DecidableEq

/-- The `__json__` attribute of a model class, computed once at class
declaration time by `__declare_last__` and stored on the class. -/
def EntityType.json (T : EntityType) : List String :=
  declare_last_json T.members

/-- A runtime attribute value of a model instance: a scalar, a related
model instance (with its class data inlined), a list of values, or an
attribute whose resolution raises a `ValueError` carrying a message
(the failure case handled at src/kit/ext/orm.py lines 377-378). -/
inductive Value where
  | vInt (n : Int)
  | vStr (s : String)
  | vNull
  | vErr (msg : String)
  | vList (items : List Value)
  | vEnt (pk_names : List String) (json : List String)
         (attrs : List (String × Value))

/-- Attribute access `getattr(self, k)` on an instance whose attribute
dictionary is `attrs`; a mapped attribute that was never set reads as
Python `None`. -/
def pyGetattr (attrs : List (String × Value)) (k : String) : Value :=
  (List.lookup k attrs).getD .vNull

/-- A scalar value as it appears inside a JSON-safe dictionary (used for
primary-key values, which are scalar columns). -/
def Value.scalar : Value → PyObj
  | .vInt n => .int n
  | .vStr s => .str s
  | _ => .null

/-- Modelled from the spec: the helper `kit.util.to_json` imported at
src/kit/ext/orm.py line 79 is not under `src/`. Per spec section 4.2 it
recursively serializes a value at a given depth: scalars pass through
unchanged, a list serializes each member at the same remaining depth, a
model instance serializes as `Model.to_json` does (primary keys only when
the depth is not positive, otherwise every `__json__` field at depth one
less), and a failing attribute raises a `ValueError` (`Except.error`
carries its message). -/
def util_to_json (v : Value) (d : Int) : Except String PyObj :=
  match v with
  | .vInt n => .ok (.int n)
  | .vStr s => .ok (.str s)
  | .vNull => .ok .null
  | .vErr msg => .error msg
  | .vList items =>
      (items.attach.mapM fun x => util_to_json x.1 d).map PyObj.list
  | .vEnt pk_names json attrs =>
      if d ≤ 0 then
        .ok (.dict (pk_names.map fun k => (k, (pyGetattr attrs k).scalar)))
      else
        .ok (.dict (json.map fun k =>
          (k, match util_to_json (pyGetattr attrs k) (d - 1) with
              | .error msg => .str msg
              | .ok o => o)))
termination_by (d.toNat, sizeOf v)
decreasing_by
  · exact Prod.Lex.right d.toNat (by
      have := List.sizeOf_lt_of_mem x.2
      simp only [Value.vList.sizeOf_spec]
      omega)
  · exact Prod.Lex.left _ _ (by omega)

/-- A model instance: its class and its attribute dictionary. -/
structure Entity where
  etype : EntityType
  attrs : List (String × Value)

namespace Model

/-- Embedding of `Model.get_primary_key` (src/kit/ext/orm.py lines
327-345, dictionary form): the map from each primary-key column name to
the instance's value for it. -/
def get_primary_key (e : Entity) : List (String × PyObj) :=
  e.etype.pk_names.map fun k => (k, (pyGetattr e.attrs k).scalar)

/-- Embedding of `Model.to_json` (src/kit/ext/orm.py lines 347-379): when
`depth <= 0` return `get_primary_key()`; otherwise build a dictionary
with one entry per name in the class's `__json__` list, each value
serialized by `kit.util.to_json` at `depth - 1`, a `ValueError` being
caught and replaced by its message. -/
def to_json (e : Entity) (depth : Int) : List (String × PyObj) :=
  if depth ≤ 0 then get_primary_key e
  else e.etype.json.map fun k =>
    (k, match util_to_json (pyGetattr e.attrs k) (depth - 1) with
        | .error msg => .str msg
        | .ok o => o)

end Model

/-- A sample model class used by concrete witnesses: a `Cat` with an
integer primary key, a name column, an eagerly-joined `house`
relationship, a dynamic (hence unexposed) `toys` relationship, a private
column and an exposed property. -/
def catType : EntityType :=
  { pk_names := ["id"]
    members := [("_secret", .column), ("age", .property),
                ("house", .relationship .ljoined), ("id", .column),
                ("name", .column), ("toys", .relationship .ldynamic)] }

/-- A sample `Cat` instance. -/
def sampleCat : Entity :=
  { etype := catType
    attrs := [("id", .vInt 7), ("name", .vStr "felix"), ("age", .vInt 3),
              ("_secret", .vInt 0),
              ("house", .vEnt ["id"] ["address", "id"]
                [("id", .vInt 1), ("address", .vStr "main st")]),
              ("toys", .vList [.vStr "ball"])] }

/-- A second sample `Cat` instance with different attribute values. -/
def sampleCat2 : Entity :=
  { etype := catType
    attrs := [("id", .vInt 8), ("name", .vStr "tom")] }

/-- C1: for every entity and every depth `d <= 0`, `Model.to_json`
returns exactly the primary-key dictionary — its key list is the list of
primary-key column names and nothing else — and for `d < 0` the result
coincides with the result at depth 0. -/
theorem to_json_nonpositive_depth (e : Entity) (d : Int) (h : d ≤ 0) :
    Model.to_json e d = Model.get_primary_key e ∧
    (Model.to_json e d).map Prod.fst = e.etype.pk_names ∧
    Model.to_json e d = Model.to_json e 0 := by
  refine ⟨by simp [Model.to_json, h], ?_, by simp [Model.to_json, h]⟩
  simp [Model.to_json, h, Model.get_primary_key, List.map_map,
    Function.comp_def]

/-- Witness for C1: the theorem applied to a concrete entity at depth -2. -/
theorem to_json_nonpositive_depth_check :
    Model.to_json sampleCat (-2) = Model.get_primary_key sampleCat ∧
    (Model.to_json sampleCat (-2)).map Prod.fst = ["id"] ∧
    Model.to_json sampleCat (-2) = Model.to_json sampleCat 0 :=
  to_json_nonpositive_depth sampleCat (-2) (by decide)

/-- C2: at every positive depth the key list of a serialized instance is
exactly the `__json__` list computed by `__declare_last__` from the class
declaration; consequently any two instances of the same class — in
particular instances served by two different routes — serialize to the
same field-name list at the same positive depth. -/
theorem to_json_keys_declared (T : EntityType) (e₁ e₂ : Entity) (d : Int)
    (hd : 0 < d) (h₁ : e₁.etype = T) (h₂ : e₂.etype = T) :
    (Model.to_json e₁ d).map Prod.fst = declare_last_json T.members ∧
    (Model.to_json e₁ d).map Prod.fst = (Model.to_json e₂ d).map Prod.fst := by
  have key : ∀ e : Entity, e.etype = T →
      (Model.to_json e d).map Prod.fst = declare_last_json T.members := by
    intro e he
    simp [Model.to_json, not_le.mpr hd, EntityType.json, he, List.map_map,
      Function.comp_def]
  exact ⟨key e₁ h₁, (key e₁ h₁).trans (key e₂ h₂).symm⟩

/-- Witness for C2: two concrete `Cat` instances at depth 1 both expose
exactly the declaration-computed field list (the sorted public members
that are columns, properties or eager relationships). -/
theorem to_json_keys_declared_check :
    (Model.to_json sampleCat 1).map Prod.fst
      = declare_last_json catType.members ∧
    (Model.to_json sampleCat 1).map Prod.fst
      = (Model.to_json sampleCat2 1).map Prod.fst :=
  to_json_keys_declared catType sampleCat sampleCat2 1 (by decide) rfl rfl

/-!
Part 2 embeds the API layer of `src/flasker/ext/api.py`: the view request
handlers (`CollectionView`, `ModelView`), the query pipeline
`CollectionView._process_query`, the validation helper
`APIView.is_validated` and the dispatcher `APIView.__call__`. Request
handling is fallible, so handlers return `Except Err`; stateful store
operations are embedded as explicit state passing over the list of rows.
-/

/-- An abnormal outcome of a request handler: either an `APIError`
(src/flasker/ext/api.py lines 23-37), which `APIView.__call__` catches
and turns into an error response with the given transport code, or any
other Python exception (identified by its class name), which propagates
out of this layer uncaught. -/
inductive Err where
  | api (code : Nat) (msg : String)
  | exn (name : String)
deriving DecidableEq

/-- Python `int(s)` on a string: surrounding whitespace is ignored, an
optional single sign is followed by at least one decimal digit;
`Option.none` models the `ValueError` raised on any other input. -/
def pyInt (s : String) : Option Int :=
  let core := (s.data.dropWhile Char.isWhitespace).reverse.dropWhile
    Char.isWhitespace |>.reverse
  let digits : List Char → Option Nat := fun cs =>
    if cs ≠ [] ∧ cs.all Char.isDigit then
      some (cs.foldl (fun n c => 10 * n + (c.toNat - 48)) 0)
    else Option.none
  match core with
  | '-' :: cs => (digits cs).map fun n => -(n : Int)
  | '+' :: cs => (digits cs).map fun n => (n : Int)
  | cs => (digits cs).map fun n => (n : Int)

/-- Python `s.split(',')`: splits on every comma; the empty string yields
a single empty piece. -/
def pySplitCommaAux : List Char → List Char → List String
  | [], acc => [String.mk acc.reverse]
  | c :: cs, acc =>
      if c = ',' then String.mk acc.reverse :: pySplitCommaAux cs []
      else pySplitCommaAux cs (c :: acc)

/-- Python `s.split(',')` on a string. -/
def pySplitComma (s : String) : List String := pySplitCommaAux s.data []

/-- Python `s.strip('-')`: removes dashes from both ends of the string
(used on the `sort` parameter at src/flasker/ext/api.py line 400). -/
def pyStripDash (s : String) : String :=
  String.mk ((s.data.dropWhile (· = '-')).reverse.dropWhile (· = '-')
    |>.reverse)

/-- First character test `sort[0] == '-'` (src/flasker/ext/api.py line
403); the call site guarantees the string is non-empty. -/
def startsWithDash (s : String) : Bool :=
  match s.data with
  | '-' :: _ => true
  | _ => false

/-- The manager configuration dictionary (src/flasker/ext/api.py lines
45-51), without the routing-only `URL_PREFIX` entry. -/
structure ApiConfig where
  DEFAULT_COLLECTION_DEPTH : Int := 0
  DEFAULT_MODEL_DEPTH : Int := 1
  DEFAULT_LIMIT : Int := 20
  MAX_LIMIT : Option Int := Option.none
deriving DecidableEq

/-- The configuration with every option left at its default. -/
def defaultConfig : ApiConfig := {}

/-- A stored row of the one registered model used by the API embedding: a
single-column integer primary key named `id` (the pipeline filters on
`Model.id` at src/flasker/ext/api.py line 398) plus the other column
values, kept as strings. -/
structure Row where
  id : Int
  attrs : List (String × String)
deriving DecidableEq

/-- Column access `getattr(Model, k)` evaluated on a row: the `id` column
compares through its decimal rendering (the store coerces the query
string), any other column reads from the attribute dictionary. -/
def Row.col (r : Row) (k : String) : String :=
  if k = "id" then toString r.id else (List.lookup k r.attrs).getD ""

/-- Modelled from the spec: the serializer method `jsonify` that the API
layer calls on each row comes from `flasker.util.Model`, which is not
under `src/`. Per spec section 4.2, a depth that is not positive yields
only the primary-key fields and a positive depth yields every exposed
field (here the `id` column and every other column value). -/
def Row.jsonify (r : Row) (depth : Int) : List (String × PyObj) :=
  if depth ≤ 0 then [("id", .int r.id)]
  else ("id", .int r.id) :: r.attrs.map fun kv => (kv.1, .str kv.2)

/-- The reserved control parameter names of a collection view
(src/flasker/ext/api.py line 302). -/
def reservedParams : List String := ["depth", "limit", "offset", "loaded", "sort"]

/-- The filter-collection loop of `_process_query` (src/flasker/ext/api.py
lines 370-375): every query parameter naming a declared column becomes an
equality filter; any other parameter that is not a reserved control
parameter aborts with a 400. -/
def parseFiltersAux (column_names : List String)
    (acc : List (String × String)) :
    List (String × String) → Except Err (List (String × String))
  | [] => .ok acc
  | kv :: rest =>
      if column_names.contains kv.1 then
        parseFiltersAux column_names (acc ++ [kv]) rest
      else if reservedParams.contains kv.1 then
        parseFiltersAux column_names acc rest
      else .error (.api 400 "Bad Request")

/-- The filter dictionary accumulated over all request arguments. -/
def parseFilters (column_names : List String)
    (args : List (String × String)) :
    Except Err (List (String × String)) :=
  parseFiltersAux column_names [] args

/-- Integer conversion of an optional request argument with an integer
default (the `int(request.args.get(k, default))` pattern of
src/flasker/ext/api.py lines 377-385); a `ValueError` becomes the 400
response raised at line 389. -/
def pyIntOr (s? : Option String) (dflt : Int) : Except Err Int :=
  match s? with
  | Option.none => .ok dflt
  | some s =>
      match pyInt s with
      | some n => .ok n
      | Option.none => .error (.api 400 "Invalid parameters")

/-- Parsing of `offset` (src/flasker/ext/api.py line 377): default 0,
clamped below at 0. -/
def parseOffset (args : List (String × String)) : Except Err Int :=
  (pyIntOr (List.lookup "offset" args) 0).map (max 0)

/-- Parsing of `limit` (src/flasker/ext/api.py lines 378-382): default
`DEFAULT_LIMIT`, clamped below at 0, then clamped above at `MAX_LIMIT`
when that option is set and truthy (`if self.defaults['MAX_LIMIT']:`). -/
def parseLimit (cfg : ApiConfig) (args : List (String × String)) :
    Except Err Int :=
  (pyIntOr (List.lookup "limit" args) cfg.DEFAULT_LIMIT).map fun l =>
    let l := max 0 l
    match cfg.MAX_LIMIT with
    | some m => if m ≠ 0 then min l m else l
    | Option.none => l

/-- Parsing of `depth` (src/flasker/ext/api.py lines 383-385): default
`DEFAULT_COLLECTION_DEPTH`, clamped below at 0. -/
def parseDepth (cfg : ApiConfig) (args : List (String × String)) :
    Except Err Int :=
  (pyIntOr (List.lookup "depth" args) cfg.DEFAULT_COLLECTION_DEPTH).map (max 0)

/-- The non-empty comma-separated pieces of the `loaded` parameter
(src/flasker/ext/api.py line 386: `request.args.get('loaded',
'').split(',')` filtered by `if e`). -/
def loadedStrings (args : List (String × String)) : List String :=
  (pySplitComma ((List.lookup "loaded" args).getD "")).filter
    fun e => e ≠ ""

/-- Parsing of `loaded` (src/flasker/ext/api.py line 386): each piece is
converted with `int`, a `ValueError` becoming the 400 of line 389. -/
def parseLoaded (args : List (String × String)) : Except Err (List Int) :=
  (loadedStrings args).mapM fun e =>
    match pyInt e with
    | some n => Except.ok n
    | Option.none => Except.error (Err.api 400 "Invalid parameters")

/-- The equality-filter application loop of `_process_query`
(src/flasker/ext/api.py lines 392-393). -/
def applyFilters (filters : List (String × String)) (rows : List Row) :
    List Row :=
  filters.foldl (fun q kv => q.filter fun r => r.col kv.1 = kv.2) rows

/-- Insertion into a sorted list, the building block of the embedded
`order_by`. -/
def insertLe (le : Row → Row → Bool) (x : Row) : List Row → List Row
  | [] => [x]
  | y :: ys => if le x y then x :: y :: ys else y :: insertLe le x ys

/-- The store's `order_by`: a sort of the row list by the given
comparison (insertion sort). -/
def orderBy (le : Row → Row → Bool) (rows : List Row) : List Row :=
  rows.foldr (insertLe le) []

/-- The sort branch of `_process_query` (src/flasker/ext/api.py lines
399-406): the parameter stripped of dashes must name a declared column,
else 400; a leading dash selects descending order. -/
def applySort (column_names : List String) (sort : String)
    (rows : List Row) : Except Err (List Row) :=
  if column_names.contains (pyStripDash sort) then
    if startsWithDash sort then
      .ok (orderBy (fun a b =>
        decide (b.col (pyStripDash sort) ≤ a.col (pyStripDash sort))) rows)
    else
      .ok (orderBy (fun a b =>
        decide (a.col (pyStripDash sort) ≤ b.col (pyStripDash sort))) rows)
  else .error (.api 400 "Invalid sort parameter")

/-- The result dictionary built by `_process_query` and `_process_list`
(wall-clock `processing_times` omitted: they are environment data, not
program logic). -/
structure QueryResult where
  total_matches : Int
  content : List PyObj

/-- The `loaded` exclusion step of `_process_query`
(src/flasker/ext/api.py lines 397-398): only applied when at least one
`loaded` value was given (`if loaded:`). -/
def applyLoaded (loaded : List Int) (q : List Row) : List Row :=
  if loaded.isEmpty then q
  else q.filter fun r => !(loaded.contains r.id)

/-- The pagination step of `_process_query` (src/flasker/ext/api.py
lines 407-408 and 414): `limit` is only applied when non-zero (`if
limit:`); the store evaluates `.limit(limit).offset(offset)` by skipping
`offset` rows and then returning at most `limit` of the remainder. -/
def applyPage (limit offset : Int) (q : List Row) : List Row :=
  if limit = 0 then q.drop offset.toNat
  else (q.drop offset.toNat).take limit.toNat

/-- Embedding of `CollectionView._process_query` (src/flasker/ext/api.py
lines 365-416) over a lazy query source holding `rows`: collect equality
filters (unknown parameters give 400), parse the control parameters (any
bad integer gives 400), apply the filters, take the hard-coded
`total_matches = 10` (line 394, where the real `query.count()` is
commented out), exclude the `loaded` primary keys when any were given,
apply `sort`, and finally page with `limit` (skipped entirely when the
limit is 0, line 407) and `offset`, serializing each remaining row at the
requested depth. -/
def process_query (cfg : ApiConfig) (column_names : List String)
    (rows : List Row) (args : List (String × String)) :
    Except Err QueryResult :=
  match parseFilters column_names args with
  | .error e => .error e
  | .ok filters =>
  match parseOffset args with
  | .error e => .error e
  | .ok offset =>
  match parseLimit cfg args with
  | .error e => .error e
  | .ok limit =>
  match parseDepth cfg args with
  | .error e => .error e
  | .ok depth =>
  match parseLoaded args with
  | .error e => .error e
  | .ok loaded =>
    match (if (List.lookup "sort" args).getD "" = ""
           then Except.ok (applyLoaded loaded (applyFilters filters rows))
           else applySort column_names ((List.lookup "sort" args).getD "")
             (applyLoaded loaded (applyFilters filters rows)) :
           Except Err (List Row)) with
    | .error e => .error e
    | .ok q =>
      .ok { total_matches := 10
            content := (applyPage limit offset q).map fun r =>
              PyObj.dict (r.jsonify depth) }

/-- The part of the request visible to response envelopes: the base URL,
the HTTP method and the combined query/form values
(src/flasker/ext/api.py lines 217-221 and 341-345). -/
structure ReqInfo where
  base_url : String
  method : String
  values : List (String × String)

/-- The `request` echo dictionary of a response envelope. -/
def reqDict (req : ReqInfo) : PyObj :=
  .dict [("base_url", .str req.base_url), ("method", .str req.method),
         ("values", .dict (req.values.map fun kv => (kv.1, .str kv.2)))]

/-- A wire response: the JSON body handed to the transport and the
numeric transport status code. -/
structure Response where
  body : PyObj
  code : Nat

/-- The pluggable hooks held by the `APIManager` (src/flasker/ext/api.py
lines 42-43): the validate hook receives the model name, the request
JSON and the HTTP method. -/
structure Manager where
  validate : Option (String → List (String × String) → String → Bool) :=
    Option.none

/-- Embedding of `APIView.is_validated` (src/flasker/ext/api.py lines
248-252). When no validate hook is registered the result is `True`.
When one is registered, the code reads `self._mananager._validate` — a
misspelling of `_manager`; no attribute of that name exists, so an
`AttributeError` is raised before the hook can be called, whatever the
hook is. -/
def APIView.is_validated (mgr : Manager)
    (json : List (String × String)) (method : String) : Except Err Bool :=
  match mgr.validate with
  | Option.none => .ok true
  | some _ => .error (.exn "AttributeError")

/-- Primary-key lookup `self.Model.query.get(...)` for the embedded
single-`id`-column model. -/
def query_get (rows : List Row) (pk : Int) : Option Row :=
  rows.find? fun r => r.id = pk

/-- The runtime value of a to-many relationship attribute: either an
already materialized `InstrumentedList` of rows or a lazy (dynamic)
query over rows, the two cases distinguished by the `isinstance` checks
at src/flasker/ext/api.py lines 330 and 451. -/
inductive RelVal where
  | ilist (xs : List Row)
  | lazyQ (xs : List Row)

/-- Embedding of `ModelView.get` (src/flasker/ext/api.py lines 439-462).
The `depth` parameter is converted with a bare `int(...)` (line 441): a
non-integer value raises a `ValueError` that nothing catches. The owning
row is then fetched by primary key. With a position segment, the
position is converted with `int` (`ValueError` caught into a 400), one
is subtracted, and a negative result is a 400; otherwise the
relationship (read with `getattr` on the owner, an `AttributeError` when
the owner was not found) is indexed: an `IndexError` on a materialized
list is caught into `None`, a lazy query uses `.offset(pos).first()`.
A missing result is a 404; a found row is serialized bare at the
requested depth. -/
def ModelView.get (cfg : ApiConfig) (rows : List Row)
    (getRel : Row → RelVal) (args : List (String × String)) (pk : Int)
    (position : Option String) : Except Err Response :=
  match pyIntOr (List.lookup "depth" args) cfg.DEFAULT_MODEL_DEPTH with
  | .error _ => .error (.exn "ValueError")
  | .ok depth =>
    let model0 := query_get rows pk
    let model1 : Except Err (Option Row) :=
      match position with
      | Option.none => .ok model0
      | some p =>
        match pyInt p with
        | Option.none => .error (.api 400 "Invalid position index")
        | some n =>
          if 0 ≤ n - 1 then
            match model0 with
            | Option.none => .error (.exn "AttributeError")
            | some m =>
              match getRel m with
              | .ilist xs => .ok (xs.get? (n - 1).toNat)
              | .lazyQ xs => .ok ((xs.drop (n - 1).toNat).head?)
          else .error (.api 400 "Invalid position index")
    match model1 with
    | .error e => .error e
    | .ok Option.none => .error (.api 404 "No resource at this position")
    | .ok (some m) => .ok ⟨.dict (m.jsonify depth), 200⟩

/-- Update of an association list at a key, appending when absent (the
effect of a Python attribute assignment on the attribute dictionary). -/
def updateAssoc : List (String × String) → String → String →
    List (String × String)
  | [], k, v => [(k, v)]
  | kv :: rest, k, v =>
      if kv.1 = k then (k, v) :: rest else kv :: updateAssoc rest k v

/-- Attribute assignment `setattr(model, k, v)` from a request JSON pair;
assigning the integer primary-key column parses the value (store-level
type coercion is outside this layer). -/
def Row.pySetattr (r : Row) (k v : String) : Row :=
  if k = "id" then { r with id := (pyInt v).getD r.id }
  else { r with attrs := updateAssoc r.attrs k v }

/-- Embedding of `ModelView.put` (src/flasker/ext/api.py lines 464-474):
fetch by primary key (404 when absent), validate (see
`APIView.is_validated`), apply every JSON field with `setattr`, and
serialize the updated row at `params['depth']` — an absent `depth`
parameter raises werkzeug's `BadRequestKeyError`. The updated store
contents are returned alongside the response. The depth string is passed
to the spec-modelled `jsonify` as its parsed integer value (the
`flasker.util` serializer is not under `src/`). -/
def ModelView.put (cfg : ApiConfig) (mgr : Manager) (rows : List Row)
    (pk : Int) (json : List (String × String))
    (args : List (String × String)) :
    Except Err (List Row × Response) :=
  match query_get rows pk with
  | some m =>
    match APIView.is_validated mgr json "PUT" with
    | .error e => .error e
    | .ok true =>
      let m' := json.foldl (fun acc kv => acc.pySetattr kv.1 kv.2) m
      let rows' := rows.map fun r => if r = m then m' else r
      match List.lookup "depth" args with
      | Option.none => .error (.exn "BadRequestKeyError")
      | some ds =>
          .ok (rows',
            ⟨.dict (m'.jsonify ((pyInt ds).getD cfg.DEFAULT_MODEL_DEPTH)),
             200⟩)
    | .ok false => .error (.api 400 "Failed validation")
  | Option.none => .error (.api 404 "No resource found for this ID")

/-- Embedding of `CollectionView.post` (src/flasker/ext/api.py lines
349-356): after validation succeeds, line 351 evaluates `Model(
**request.json)` — but the bare name `Model` is unbound in that scope
(the module imports it only as `BaseModel`, and `self.Model` was surely
intended), so a `NameError` is raised before any entity is constructed
or persisted. A falsy validation would give a 400; the updated store is
returned on the (unreachable) success path. -/
def CollectionView.post (cfg : ApiConfig) (mgr : Manager)
    (rows : List Row) (json : List (String × String))
    (args : List (String × String)) :
    Except Err (List Row × Response) :=
  match APIView.is_validated mgr json "POST" with
  | .error e => .error e
  | .ok true => .error (.exn "NameError")
  | .ok false => .error (.api 400 "Failed validation")

/-- Embedding of `CollectionView._process_list` (src/flasker/ext/api.py
lines 358-363) over a materialized relationship list: the total is the
list length and every element is serialized at the configured collection
depth; the request parameters are ignored. -/
def process_list (cfg : ApiConfig) (lst : List Row) : QueryResult :=
  { total_matches := lst.length
    content := lst.map fun e =>
      PyObj.dict (e.jsonify cfg.DEFAULT_COLLECTION_DEPTH) }

/-- The source of a collection GET (src/flasker/ext/api.py lines
322-333): either a materialized `InstrumentedList` or a lazy query. -/
inductive CollSource where
  | instList (lst : List Row)
  | lazyQ (rows : List Row)

/-- The success envelope of a collection GET (src/flasker/ext/api.py
lines 334-347), carrying `status`, `processing_time`, `matches.total`,
`matches.returned`, the request echo and the content list. -/
def collectionResponse (results : QueryResult) (req : ReqInfo) : Response :=
  ⟨.dict [("status", .str "200 Success"),
          ("processing_time", .list []),
          ("matches", .dict [("total", .int results.total_matches),
            ("returned", .int results.content.length)]),
          ("request", reqDict req),
          ("content", .list results.content)], 200⟩

/-- Embedding of `CollectionView.get` (src/flasker/ext/api.py lines
322-347): process the source through `_process_list` or
`_process_query`, then wrap the results in the success envelope. -/
def CollectionView.get (cfg : ApiConfig) (column_names : List String)
    (source : CollSource) (args : List (String × String))
    (req : ReqInfo) : Except Err Response :=
  match (match source with
         | .instList lst => .ok (process_list cfg lst)
         | .lazyQ rows => process_query cfg column_names rows args :
         Except Err QueryResult) with
  | .error e => .error e
  | .ok results => .ok (collectionResponse results req)

/-- The error envelope produced by the `except APIError` handler of
`APIView.__call__` (src/flasker/ext/api.py lines 214-223): `status` and
`content` both carry the error's message string and the numeric code
becomes the transport status. -/
def envelopeError (req : ReqInfo) (code : Nat) (msg : String) : Response :=
  ⟨.dict [("status", .str msg), ("request", reqDict req),
          ("content", .str msg)], code⟩

/-- Embedding of `APIView.__call__` (src/flasker/ext/api.py lines
204-223): a failed authorization check raises a 403 `APIError`, a method
outside the route's set raises a 405, otherwise the method handler runs;
an `APIError` from any of these is caught and rendered as the error
envelope, while any other exception escapes this layer uncaught. -/
def APIView.call (authorized : Bool) (methodAllowed : Bool)
    (handler : Except Err Response) (req : ReqInfo) :
    Except String Response :=
  let r : Except Err Response :=
    if !authorized then .error (.api 403 "Not authorized")
    else if methodAllowed then handler
    else .error (.api 405 "Method Not Allowed")
  match r with
  | .ok resp => .ok resp
  | .error (.api code msg) => .ok (envelopeError req code msg)
  | .error (.exn n) => .error n

/-!
Part 3: helper lemmas about the pipeline stages.
-/

theorem mem_applyFilters {filters : List (String × String)}
    {rows : List Row} {a : Row} :
    a ∈ applyFilters filters rows → a ∈ rows := by
  induction filters generalizing rows with
  | nil => intro h; simpa [applyFilters] using h
  | cons kv rest ih =>
      intro h
      have h' : a ∈ rows.filter fun r => r.col kv.1 = kv.2 :=
        ih (by simpa [applyFilters] using h)
      exact List.mem_of_mem_filter h'

theorem mem_insertLe {le : Row → Row → Bool} {x : Row} {l : List Row}
    {a : Row} : a ∈ insertLe le x l → a = x ∨ a ∈ l := by
  induction l with
  | nil => intro h; simpa [insertLe] using h
  | cons y ys ih =>
      intro h
      by_cases hc : le x y
      · simpa [insertLe, hc] using h
      · simp [insertLe, hc] at h
        rcases h with h | h
        · exact Or.inr (by simp [h])
        · rcases ih h with h' | h'
          · exact Or.inl h'
          · exact Or.inr (by simp [h'])

theorem mem_orderBy {le : Row → Row → Bool} {l : List Row} {a : Row} :
    a ∈ orderBy le l → a ∈ l := by
  induction l with
  | nil => intro h; simp [orderBy] at h
  | cons y ys ih =>
      intro h
      have h' : a ∈ insertLe le y (orderBy le ys) := by
        simpa [orderBy] using h
      rcases mem_insertLe h' with h'' | h''
      · simp [h'']
      · simp [ih h'']

theorem mem_applySort {cols : List String} {sort : String}
    {rows q : List Row} (h : applySort cols sort rows = .ok q) {a : Row}
    (ha : a ∈ q) : a ∈ rows := by
  unfold applySort at h
  by_cases hc : cols.contains (pyStripDash sort) = true
  · rw [if_pos hc] at h
    by_cases hd : startsWithDash sort = true
    · rw [if_pos hd] at h
      injection h with h
      subst h
      exact mem_orderBy ha
    · rw [if_neg hd] at h
      injection h with h
      subst h
      exact mem_orderBy ha
  · rw [if_neg hc] at h
    cases h

theorem mem_sortStep {cols : List String} {sort : String}
    {q q' : List Row}
    (h : (if sort = "" then Except.ok q else applySort cols sort q :
          Except Err (List Row)) = .ok q')
    {a : Row} (ha : a ∈ q') : a ∈ q := by
  by_cases hs : sort = ""
  · rw [if_pos hs] at h
    injection h with h
    subst h
    exact ha
  · rw [if_neg hs] at h
    exact mem_applySort h ha

theorem mem_applyLoaded {loaded : List Int} {q : List Row} {a : Row}
    (h : a ∈ applyLoaded loaded q) :
    a ∈ q ∧ loaded.contains a.id = false := by
  unfold applyLoaded at h
  by_cases he : loaded.isEmpty
  · rw [if_pos he] at h
    refine ⟨h, ?_⟩
    cases loaded with
    | nil => rfl
    | cons v vs => simp [List.isEmpty] at he
  · rw [if_neg he] at h
    have := List.mem_filter.mp h
    refine ⟨this.1, ?_⟩
    simpa using this.2

theorem mem_applyPage {limit offset : Int} {q : List Row} {a : Row}
    (h : a ∈ applyPage limit offset q) : a ∈ q := by
  unfold applyPage at h
  split at h
  · exact List.drop_subset _ _ h
  · exact List.drop_subset _ _ (List.take_subset _ _ h)

theorem parseFiltersAux_ok (cols : List String) :
    ∀ (l acc : List (String × String)),
    (∀ kv ∈ l, cols.contains kv.1 = true ∨
       reservedParams.contains kv.1 = true) →
    parseFiltersAux cols acc l =
      .ok (acc ++ l.filter fun kv => cols.contains kv.1) := by
  intro l
  induction l with
  | nil => intro acc _; simp [parseFiltersAux]
  | cons kv rest ih =>
      intro acc h
      by_cases hb : cols.contains kv.1 = true
      · have hm : kv.1 ∈ cols := by simpa using hb
        rw [parseFiltersAux, if_pos hb,
          ih (acc ++ [kv]) (fun x hx => h x (by simp [hx])),
          List.filter_cons]
        simp [hm]
      · rcases h kv (by simp) with hc | hr
        · exact absurd hc hb
        · have hm : kv.1 ∉ cols := by simpa using hb
          rw [parseFiltersAux, if_neg hb, if_pos hr,
            ih acc (fun x hx => h x (by simp [hx])), List.filter_cons]
          simp [hm]

theorem lookup_append_right {k : String} {l₁ l₂ : List (String × String)}
    (h : ∀ kv ∈ l₁, kv.1 ≠ k) :
    List.lookup k (l₁ ++ l₂) = List.lookup k l₂ := by
  induction l₁ with
  | nil => simp
  | cons kv rest ih =>
      rcases kv with ⟨k', v'⟩
      have hne : (k == k') = false := by
        have hk : k' ≠ k := h (k', v') (by simp)
        simp only [beq_eq_false_iff_ne]
        exact fun e => hk e.symm
      simp only [List.cons_append, List.lookup, hne]
      exact ih fun x hx => h x (by simp [hx])

/-- A sample request echo used in concrete statements. -/
def sampleReq : ReqInfo :=
  { base_url := "http://localhost/api/cats/", method := "GET", values := [] }

/-!
Part 4: the claim theorems.
-/

/-- C3: the total-match count of a collection GET over a lazy source is
NOT the number of entities matching the filters: `_process_query`
hard-codes `total_matches = 10` (src/flasker/ext/api.py line 394, the
real `query.count()` being commented out), so a store with zero matching
rows still reports a total of 10. -/
theorem total_matches_is_stubbed :
    process_query defaultConfig ["id"] [] [] =
      .ok { total_matches := 10, content := [] } ∧
    CollectionView.get defaultConfig ["id"] (.lazyQ []) [] sampleReq =
      .ok ⟨.dict [("status", .str "200 Success"),
                  ("processing_time", .list []),
                  ("matches", .dict [("total", .int 10),
                    ("returned", .int 0)]),
                  ("request", reqDict sampleReq),
                  ("content", .list [])], 200⟩ :=
  ⟨rfl, rfl⟩

/-- C5: a collection POST never constructs or persists an entity: once
validation passes (here: no validate hook is registered, so every body
is treated as valid), line 351 of src/flasker/ext/api.py evaluates the
unbound name `Model` and raises a `NameError`, whatever the store
contents, request body, and parameters. -/
theorem post_always_raises_name_error (rows : List Row)
    (json args : List (String × String)) :
    CollectionView.post defaultConfig {} rows json args =
      .error (.exn "NameError") :=
  rfl

/-- C9: a non-integer `depth` on a singleton GET does NOT yield a 400:
`ModelView.get` converts it with a bare `int(...)` (src/flasker/ext/api.py
line 441), so the `ValueError` propagates uncaught out of the API layer
instead of becoming an `APIError`; the same value on a collection GET is
caught and yields the 400 the claim describes. -/
theorem depth_parse_error_uncaught :
    ModelView.get defaultConfig [⟨1, []⟩] (fun _ => RelVal.ilist [])
      [("depth", "abc")] 1 Option.none = .error (.exn "ValueError") ∧
    process_query defaultConfig ["id"] [] [("depth", "abc")] =
      .error (.api 400 "Invalid parameters") :=
  ⟨rfl, rfl⟩

/-- Counterexample to C4: with one stored row and `limit=0`, the claim
predicts `min(0, max(0, 1-0)) = 0` returned items, but `_process_query`
only applies a truthy limit (`if limit:` at src/flasker/ext/api.py line
407), so the request returns the full row instead. -/
theorem limit_zero_returns_all_rows :
    process_query defaultConfig ["id", "name"] [⟨1, []⟩]
      [("limit", "0")] =
      .ok { total_matches := 10
            content := [PyObj.dict [("id", PyObj.int 1)]] } ∧
    min 0 (max 0 (1 - 0)) = 0 :=
  ⟨rfl, rfl⟩

/-- Counterexample to C7: a successful singleton GET dispatched through
`APIView.__call__` returns the bare serialized entity — its body has no
`status` and no `request` field — contradicting the claim that every
response carries the envelope. -/
theorem singleton_get_response_is_bare :
    APIView.call true true
      (ModelView.get defaultConfig [⟨1, [("name", "foo")]⟩]
        (fun _ => RelVal.ilist []) [] 1 Option.none) sampleReq =
      .ok ⟨.dict [("id", .int 1), ("name", .str "foo")], 200⟩ ∧
    (PyObj.dict [("id", PyObj.int 1),
      ("name", PyObj.str "foo")]).lookup "status" = Option.none ∧
    (PyObj.dict [("id", PyObj.int 1),
      ("name", PyObj.str "foo")]).lookup "request" = Option.none :=
  ⟨rfl, rfl, rfl⟩

/-- Counterexample to C8: a relationship singleton GET at position 0 (a
zero position) surfaces to the caller as a 400 response — not as the 404
the claim states — because `ModelView.get` raises `APIError(400,
'Invalid position index')` for a non-positive converted position
(src/flasker/ext/api.py lines 458-459). -/
theorem position_zero_surfaces_as_400 :
    APIView.call true true
      (ModelView.get defaultConfig [⟨1, []⟩]
        (fun _ => RelVal.ilist [⟨5, []⟩]) [] 1 (some "0")) sampleReq =
      .ok (envelopeError sampleReq 400 "Invalid position index") ∧
    (envelopeError sampleReq 400 "Invalid position index").code = 400 :=
  ⟨rfl, rfl⟩

/-- C10: every item returned by a collection GET over a lazy source is
the serialization of a stored entity whose primary key is NOT among the
parsed `loaded` values: the exclusion filter is applied before sorting
and pagination, so no excluded entity can reach the content list. -/
theorem process_query_excludes_loaded (cfg : ApiConfig)
    (cols : List String) (rows : List Row)
    (args : List (String × String)) (res : QueryResult) (vs : List Int)
    (h : process_query cfg cols rows args = .ok res)
    (hl : parseLoaded args = .ok vs) :
    ∀ c ∈ res.content, ∃ r d, r ∈ rows ∧ vs.contains r.id = false ∧
      c = PyObj.dict (r.jsonify d) := by
  intro c hc
  unfold process_query at h
  cases hF : parseFilters cols args with
  | error e => rw [hF] at h; cases h
  | ok filters =>
  simp only [hF] at h
  cases hO : parseOffset args with
  | error e => rw [hO] at h; cases h
  | ok offset =>
  simp only [hO] at h
  cases hLi : parseLimit cfg args with
  | error e => rw [hLi] at h; cases h
  | ok limit =>
  simp only [hLi] at h
  cases hD : parseDepth cfg args with
  | error e => rw [hD] at h; cases h
  | ok depth =>
  simp only [hD] at h
  cases hLo : parseLoaded args with
  | error e => rw [hLo] at h; cases h
  | ok loaded =>
  simp only [hLo] at h
  have hveq : loaded = vs := by
    have h2 := hLo.symm.trans hl
    injection h2
  cases hS : (if (List.lookup "sort" args).getD "" = ""
      then Except.ok (applyLoaded loaded (applyFilters filters rows))
      else applySort cols ((List.lookup "sort" args).getD "")
        (applyLoaded loaded (applyFilters filters rows)) :
      Except Err (List Row)) with
  | error e => rw [hS] at h; cases h
  | ok q =>
  simp only [hS] at h
  injection h with h
  subst h
  rcases List.mem_map.mp hc with ⟨r, hr, hre⟩
  have hq : r ∈ applyLoaded loaded (applyFilters filters rows) :=
    mem_sortStep hS (mem_applyPage hr)
  have hqq := mem_applyLoaded hq
  exact ⟨r, depth, mem_applyFilters hqq.1, hveq ▸ hqq.2, hre.symm⟩

/-- Witness for C10: with rows 1 and 2 stored and `loaded=1`, the single
returned item is the serialization of row 2, whose key is not excluded. -/
theorem process_query_excludes_loaded_check :
    ∃ r d, r ∈ [Row.mk 1 [], Row.mk 2 []] ∧
      ([1] : List Int).contains r.id = false ∧
      PyObj.dict [("id", PyObj.int 2)] = PyObj.dict (r.jsonify d) :=
  process_query_excludes_loaded defaultConfig ["id"]
    [Row.mk 1 [], Row.mk 2 []] [("loaded", "1")]
    { total_matches := 10, content := [PyObj.dict [("id", PyObj.int 2)]] }
    [1] rfl rfl (PyObj.dict [("id", PyObj.int 2)])
    (List.mem_singleton.mpr rfl)

/-- C4 (amended): over a lazy source, with filter arguments naming
declared columns and `limit=L`, `offset=O` (no `loaded`, no `sort`, no
`MAX_LIMIT` clamp), a collection GET returns exactly
`min(L, max(0, N-O))` items when `L >= 1`, where `N` is the number of
rows matching the equality filters; when `L <= 0` the parsed limit is 0,
which `if limit:` treats as "no limit", so all `max(0, N-O)` remaining
items are returned instead. -/
theorem process_query_pagination (cfg : ApiConfig) (cols : List String)
    (rows : List Row) (fargs : List (String × String)) (ls os : String)
    (L O : Int) (hmax : cfg.MAX_LIMIT = Option.none)
    (hres : ∀ k ∈ reservedParams, cols.contains k = false)
    (hf : ∀ kv ∈ fargs, cols.contains kv.1 = true)
    (hls : pyInt ls = some L) (hos : pyInt os = some O) (hO : 0 ≤ O) :
    ∃ res, process_query cfg cols rows
        (fargs ++ [("limit", ls), ("offset", os)]) = .ok res ∧
      (1 ≤ L → res.content.length =
        min L.toNat ((applyFilters fargs rows).length - O.toNat)) ∧
      (L ≤ 0 → res.content.length =
        (applyFilters fargs rows).length - O.toNat) := by
  have hnot : ∀ k, k ∈ reservedParams → ∀ kv ∈ fargs, kv.1 ≠ k := by
    intro k hk kv hkv e
    have h1 := hf kv hkv
    rw [e, hres k hk] at h1
    cases h1
  have hlook : ∀ k, k ∈ reservedParams →
      List.lookup k (fargs ++ [("limit", ls), ("offset", os)]) =
        List.lookup k [("limit", ls), ("offset", os)] :=
    fun k hk => lookup_append_right (hnot k hk)
  have hlimit : List.lookup "limit"
      (fargs ++ [("limit", ls), ("offset", os)]) = some ls :=
    (hlook "limit" (by simp [reservedParams])).trans rfl
  have hoffset : List.lookup "offset"
      (fargs ++ [("limit", ls), ("offset", os)]) = some os :=
    (hlook "offset" (by simp [reservedParams])).trans rfl
  have hdepth : List.lookup "depth"
      (fargs ++ [("limit", ls), ("offset", os)]) = Option.none :=
    (hlook "depth" (by simp [reservedParams])).trans rfl
  have hloaded : List.lookup "loaded"
      (fargs ++ [("limit", ls), ("offset", os)]) = Option.none :=
    (hlook "loaded" (by simp [reservedParams])).trans rfl
  have hsort : List.lookup "sort"
      (fargs ++ [("limit", ls), ("offset", os)]) = Option.none :=
    (hlook "sort" (by simp [reservedParams])).trans rfl
  have hPF : parseFilters cols (fargs ++ [("limit", ls), ("offset", os)]) =
      .ok fargs := by
    unfold parseFilters
    rw [parseFiltersAux_ok cols _ []]
    · have hfilter : (fargs ++ [("limit", ls), ("offset", os)]).filter
          (fun kv => cols.contains kv.1) = fargs := by
        rw [List.filter_append, List.filter_eq_self.mpr]
        · have hl : "limit" ∉ cols := by
            simpa using hres "limit" (by simp [reservedParams])
          have ho : "offset" ∉ cols := by
            simpa using hres "offset" (by simp [reservedParams])
          simp [List.filter_cons, hl, ho]
        · exact hf
      rw [hfilter]
      rfl
    · intro kv hkv
      rcases List.mem_append.mp hkv with hkv | hkv
      · exact Or.inl (hf kv hkv)
      · right
        rcases List.mem_cons.mp hkv with h1 | h1
        · subst h1; rfl
        · rw [List.mem_singleton] at h1
          subst h1; rfl
  have hPO : parseOffset (fargs ++ [("limit", ls), ("offset", os)]) =
      .ok O := by
    unfold parseOffset pyIntOr
    simp only [hoffset, hos, Except.map]
    simp [max_eq_right hO]
  have hPL : parseLimit cfg (fargs ++ [("limit", ls), ("offset", os)]) =
      .ok (max 0 L) := by
    unfold parseLimit pyIntOr
    simp only [hlimit, hls, hmax, Except.map]
  have hPD : parseDepth cfg (fargs ++ [("limit", ls), ("offset", os)]) =
      .ok (max 0 cfg.DEFAULT_COLLECTION_DEPTH) := by
    unfold parseDepth pyIntOr
    simp only [hdepth, Except.map]
  have hPLo : parseLoaded (fargs ++ [("limit", ls), ("offset", os)]) =
      .ok [] := by
    unfold parseLoaded loadedStrings
    simp only [hloaded]
    rfl
  refine ⟨{ total_matches := 10
            content := (applyPage (max 0 L) O
              (applyLoaded [] (applyFilters fargs rows))).map fun r =>
                PyObj.dict
                  (r.jsonify (max 0 cfg.DEFAULT_COLLECTION_DEPTH)) },
          ?_, ?_, ?_⟩
  · unfold process_query
    rw [hPF, hPO, hPL, hPD, hPLo, hsort]
    rfl
  · intro h1
    have hmx : max 0 L = L := by omega
    have hne : L ≠ 0 := by omega
    simp [applyPage, applyLoaded, hmx, hne, List.length_take,
      List.length_drop]
  · intro h0
    have hmx : max 0 L = 0 := by omega
    simp [applyPage, applyLoaded, hmx, List.length_drop]

/-- Witness for C4: three stored rows, `limit=2`, `offset=1`: exactly
`min(2, 3-1) = 2` items come back. -/
theorem process_query_pagination_check :
    ∃ res, process_query defaultConfig ["id", "name"]
        [Row.mk 1 [], Row.mk 2 [], Row.mk 3 []]
        ([] ++ [("limit", "2"), ("offset", "1")]) = .ok res ∧
      (1 ≤ (2 : Int) → res.content.length =
        min (2 : Int).toNat
          ((applyFilters [] [Row.mk 1 [], Row.mk 2 [], Row.mk 3 []]).length
            - (1 : Int).toNat)) ∧
      ((2 : Int) ≤ 0 → res.content.length =
        (applyFilters [] [Row.mk 1 [], Row.mk 2 [], Row.mk 3 []]).length
          - (1 : Int).toNat) :=
  process_query_pagination defaultConfig ["id", "name"]
    [Row.mk 1 [], Row.mk 2 [], Row.mk 3 []] [] "2" "1" 2 1 rfl
    (by decide) (by simp) rfl rfl (by decide)

/-- C6: a PUT on an existing entity with a registered validate hook does
NOT invoke the hook and does not produce a 400: whatever the hook is,
`is_validated` raises an `AttributeError` first (the misspelled
`self._mananager` at src/flasker/ext/api.py line 252), so the store is
left unchanged but the 400-on-falsy behavior is unreachable; with no
hook registered, the request is treated as valid, as the claim states. -/
theorem validate_hook_never_invoked (cfg : ApiConfig) (rows : List Row)
    (pk : Int) (m : Row) (json args : List (String × String))
    (hm : query_get rows pk = some m) :
    (∀ g, ModelView.put cfg { validate := some g } rows pk json args =
       .error (.exn "AttributeError")) ∧
    APIView.is_validated { validate := Option.none } json "PUT" =
      .ok true := by
  refine ⟨?_, rfl⟩
  intro g
  unfold ModelView.put
  rw [hm]
  rfl

/-- Witness for C6: a concrete one-row store, a hook that always
returns false — the handler still raises `AttributeError` instead of
the 400, and the hookless validation still accepts. -/
theorem validate_hook_never_invoked_check :
    ModelView.put defaultConfig { validate := some fun _ _ _ => false }
      [Row.mk 1 []] 1 [] [] = .error (.exn "AttributeError") ∧
    APIView.is_validated { validate := Option.none } [] "PUT" =
      .ok true :=
  ⟨(validate_hook_never_invoked defaultConfig [Row.mk 1 []] 1 (Row.mk 1 [])
      [] [] rfl).1 _,
   (validate_hook_never_invoked defaultConfig [Row.mk 1 []] 1 (Row.mk 1 [])
      [] [] rfl).2⟩

/-- C7 (amended): the envelope `{status, request, content}` is carried by
every error response produced through `APIView.__call__` and (extended
with `processing_time` and `matches`) by every successful collection GET
response, but a successful singleton GET returns the bare serialized
entity with no envelope (and PUT and POST success paths behave the same
way; the collection POST success path is unreachable, see C5). -/
theorem envelope_coverage :
    (∀ req code msg,
      (envelopeError req code msg).body.keys =
        ["status", "request", "content"] ∧
      (envelopeError req code msg).code = code) ∧
    (∀ cfg cols source args req res,
      CollectionView.get cfg cols source args req = .ok res →
      res.body.keys =
        ["status", "processing_time", "matches", "request", "content"]) ∧
    (∀ cfg rows getRel args pk d m,
      pyIntOr (List.lookup "depth" args) cfg.DEFAULT_MODEL_DEPTH =
        .ok d →
      query_get rows pk = some m →
      ModelView.get cfg rows getRel args pk Option.none =
        .ok ⟨.dict (m.jsonify d), 200⟩) := by
  refine ⟨fun req code msg => ⟨rfl, rfl⟩, ?_, ?_⟩
  · intro cfg cols source args req res h
    unfold CollectionView.get at h
    cases source with
    | instList lst =>
        have h' : Except.ok (collectionResponse (process_list cfg lst) req)
            = Except.ok res := h
        injection h' with h'
        subst h'
        rfl
    | lazyQ rows =>
        have h2 : (match process_query cfg cols rows args with
            | Except.error e => (Except.error e : Except Err Response)
            | Except.ok results =>
                Except.ok (collectionResponse results req)) =
            Except.ok res := h
        cases hq : process_query cfg cols rows args with
        | error e => rw [hq] at h2; cases h2
        | ok results =>
            rw [hq] at h2
            have h' : Except.ok (collectionResponse results req)
                = Except.ok res := h2
            injection h' with h'
            subst h'
            rfl
  · intro cfg rows getRel args pk d m hd hq
    unfold ModelView.get
    simp only [hd, hq]

/-- Witness for C7: a concrete error envelope has exactly the three
envelope keys, and a concrete singleton GET success is the bare
serialized row. -/
theorem envelope_coverage_check :
    (envelopeError sampleReq 404 "No resource found for this ID").body.keys
      = ["status", "request", "content"] ∧
    ModelView.get defaultConfig [Row.mk 1 [("name", "foo")]]
      (fun _ => RelVal.ilist []) [] 1 Option.none =
      .ok ⟨.dict ((Row.mk 1 [("name", "foo")]).jsonify 1), 200⟩ :=
  ⟨(envelope_coverage.1 sampleReq 404 "No resource found for this ID").1,
   envelope_coverage.2.2 defaultConfig [Row.mk 1 [("name", "foo")]]
     (fun _ => RelVal.ilist []) [] 1 1 (Row.mk 1 [("name", "foo")])
     rfl rfl⟩

/-- C8 (amended): the position of a relationship singleton GET is
1-based and converted to 0-based (index `n-1` for parsed position `n`);
a position beyond the end of the relationship surfaces as a 404 exactly
like a not-found, while a zero-or-negative (or non-integer) position is
rejected earlier as a 400 client error — not as the 404 the claim
states. -/
theorem position_one_based_semantics (rows : List Row)
    (getRel : Row → RelVal) (pk : Int) (p : String) (n : Int)
    (hp : pyInt p = some n) :
    (n ≤ 0 → ModelView.get defaultConfig rows getRel [] pk (some p) =
       .error (.api 400 "Invalid position index")) ∧
    (∀ m xs, query_get rows pk = some m → getRel m = .ilist xs → 1 ≤ n →
      (∀ t, xs.get? (n - 1).toNat = some t →
        ModelView.get defaultConfig rows getRel [] pk (some p) =
          .ok ⟨.dict (t.jsonify 1), 200⟩) ∧
      (xs.length ≤ (n - 1).toNat →
        ModelView.get defaultConfig rows getRel [] pk (some p) =
          .error (.api 404 "No resource at this position"))) := by
  have e1 : pyIntOr (List.lookup "depth" ([] : List (String × String)))
      defaultConfig.DEFAULT_MODEL_DEPTH = .ok 1 := rfl
  constructor
  · intro hn
    unfold ModelView.get
    simp only [e1, hp]
    rw [if_neg (show ¬ (0 : Int) ≤ n - 1 by omega)]
  · intro m xs hqg hrel h1n
    constructor
    · intro t ht
      unfold ModelView.get
      simp only [e1, hp, hqg, hrel]
      rw [if_pos (show (0 : Int) ≤ n - 1 by omega), ht]
    · intro hlen
      unfold ModelView.get
      simp only [e1, hp, hqg, hrel]
      rw [if_pos (show (0 : Int) ≤ n - 1 by omega),
        List.get?_len_le hlen]

/-- Witness for C8: a two-element relationship list indexed at position
2 returns its second element (0-based index 1). -/
theorem position_one_based_semantics_check :
    ModelView.get defaultConfig [Row.mk 1 []]
      (fun _ => RelVal.ilist [Row.mk 5 [], Row.mk 6 []]) [] 1
      (some "2") = .ok ⟨.dict [("id", PyObj.int 6)], 200⟩ :=
  ((position_one_based_semantics [Row.mk 1 []]
      (fun _ => RelVal.ilist [Row.mk 5 [], Row.mk 6 []]) 1 "2" 2 rfl).2
    (Row.mk 1 []) [Row.mk 5 [], Row.mk 6 []] rfl rfl (by decide)).1
    (Row.mk 6 []) rfl

end Kit
